import Mathlib

/-!
Shallow embedding of the DamageScan cost-estimation worker
(`/api/csv/process` handler and its helpers).

Numbers that the TypeScript source holds as JS numbers are modelled as `ℚ`
(exact arithmetic); fields produced by `parseInt` (water_category,
water_class) are modelled as `ℤ`; `Math.ceil` is `Int.ceil`.  Strings are
Lean `String`s; JS truthiness of a number is `≠ 0`, of a string is `≠ ""`.
-/

namespace DamageScan

/-- User rate configuration (`UserConfiguration` in `lib/types`): the 16
numeric knobs used by the calculator. -/
structure UserConfiguration where
  tech_base : ℚ
  supervisor_base : ℚ
  specialist_base : ℚ
  project_management_base : ℚ
  large_dehumidifier_daily : ℚ
  standard_dehumidifier_daily : ℚ
  air_mover_daily : ℚ
  heater_daily : ℚ
  air_scrubber_daily : ℚ
  injection_system_daily : ℚ
  generator_daily : ℚ
  hardwood_target_mc : ℚ
  paneling_target_mc : ℚ
  vinyl_target_mc : ℚ
  drywall_target_mc : ℚ
  carpet_target_mc : ℚ
deriving DecidableEq

/-- `DEFAULT_CONFIGURATION` from `lib/types`. -/
def DEFAULT_CONFIGURATION : UserConfiguration :=
  { tech_base := 55
    supervisor_base := 75
    specialist_base := 120
    project_management_base := 200
    large_dehumidifier_daily := 25
    standard_dehumidifier_daily := 15
    air_mover_daily := 8
    heater_daily := 12
    air_scrubber_daily := 35
    injection_system_daily := 25
    generator_daily := 45
    hardwood_target_mc := 8
    paneling_target_mc := 10
    vinyl_target_mc := 2
    drywall_target_mc := 12
    carpet_target_mc := 5 }

/-- One parsed CSV data row (`CSVRowData`), restricted to the fields the
validator and the calculator read. -/
structure CSVRowData where
  claim_id : String
  room_id : String
  room_name : String
  generator_needed : String
  floor_materials : String
  wall_materials : String
  ceiling_materials : String
  water_category : ℤ
  water_class : ℤ
  room_sf : ℚ
  room_temp_f : ℚ
  room_humidity : ℚ
  ceiling_damage_moisture : ℚ
  wall_damage_moisture_bottom : ℚ
  wall_damage_moisture_middle : ℚ
  wall_damage_moisture_top : ℚ
  floor_materials_moisture : ℚ
  wall_damage_sf : ℚ
  floor_damage_sf : ℚ
  length_ft : ℚ
  width_ft : ℚ
deriving DecidableEq

/-- A `ValidationError` record: row number, field, message, and the
offending value when the check is numeric. -/
structure ValidationError where
  row : ℕ
  field : String
  message : String
  value : Option ℚ
deriving DecidableEq

/-- JS truthiness test `!row[field]?.trim()`: the trimmed string is empty
exactly when every character is whitespace. -/
def jsTrimEmpty (s : String) : Bool := s.data.all (fun c => c.isWhitespace)

/-- The `requiredFields` loop of `validateCSVRow`: an empty (after trim)
identifier yields one error. -/
def requiredFieldErrors (row : CSVRowData) (rowNumber : ℕ) : List ValidationError :=
  ([("claim_id", row.claim_id), ("room_id", row.room_id), ("room_name", row.room_name)]).filterMap
    fun fv =>
      if jsTrimEmpty fv.2 then
        some ⟨rowNumber, fv.1, fv.1 ++ " is required and cannot be empty", none⟩
      else none

/-- The five moisture fields in the order of the source's `moistureFields`
array, paired with their values. -/
def moistureFields (row : CSVRowData) : List (String × ℚ) :=
  [("ceiling_damage_moisture", row.ceiling_damage_moisture),
   ("wall_damage_moisture_bottom", row.wall_damage_moisture_bottom),
   ("wall_damage_moisture_middle", row.wall_damage_moisture_middle),
   ("wall_damage_moisture_top", row.wall_damage_moisture_top),
   ("floor_materials_moisture", row.floor_materials_moisture)]

/-- The moisture loop of `validateCSVRow`.  Note the source guard is
`row[field] && (row[field] < 0.05 || row[field] > 0.95)`: a value of `0`
is falsy in JS, so it is never reported. -/
def moistureErrors (row : CSVRowData) (rowNumber : ℕ) : List ValidationError :=
  (moistureFields row).filterMap fun fv =>
    if fv.2 ≠ 0 ∧ (fv.2 < 5/100 ∨ fv.2 > 95/100) then
      some ⟨rowNumber, fv.1, fv.1 ++ " must be between 0.05-0.95 (5%-95%)", some fv.2⟩
    else none

/-- `validateCSVRow` from the worker: each range check appends at most one
error, in source order. -/
def validateCSVRow (row : CSVRowData) (rowNumber : ℕ) : List ValidationError :=
  requiredFieldErrors row rowNumber
  ++ (if row.water_category < 1 ∨ row.water_category > 3 then
        [⟨rowNumber, "water_category",
          "water_category must be between 1-3 (Clean, Grey, Black)",
          some (row.water_category : ℚ)⟩]
      else [])
  ++ (if row.water_class < 1 ∨ row.water_class > 4 then
        [⟨rowNumber, "water_class",
          "water_class must be between 1-4 (Minimal, Significant, Major, Specialty)",
          some (row.water_class : ℚ)⟩]
      else [])
  ++ (if row.room_sf < 50 ∨ row.room_sf > 5000 then
        [⟨rowNumber, "room_sf", "room_sf must be between 50-5000 square feet",
          some row.room_sf⟩]
      else [])
  ++ (if row.room_temp_f < 60 ∨ row.room_temp_f > 100 then
        [⟨rowNumber, "room_temp_f", "room_temp_f must be between 60-100 F",
          some row.room_temp_f⟩]
      else [])
  ++ (if row.room_humidity < 20 ∨ row.room_humidity > 90 then
        [⟨rowNumber, "room_humidity", "room_humidity must be between 20-90%",
          some row.room_humidity⟩]
      else [])
  ++ moistureErrors row rowNumber

/-- A row is valid when the validator reports no error.  (Whether the
error list is empty does not depend on the reported row number; `2` is the
number the first data row receives in `parseCSVContent`.) -/
def RowOK (row : CSVRowData) : Prop := validateCSVRow row 2 = []

instance (row : CSVRowData) : Decidable (RowOK row) := by
  unfold RowOK; infer_instance

/-- Character-list prefix test (structural, kernel-evaluable). -/
def isPrefixChars : List Char → List Char → Bool
  | [], _ => true
  | _ :: _, [] => false
  | a :: as, b :: bs => a = b && isPrefixChars as bs

/-- Character-list substring test (JS `String.prototype.includes`). -/
def containsChars (needle : List Char) : List Char → Bool
  | [] => needle.isEmpty
  | c :: cs => isPrefixChars needle (c :: cs) || containsChars needle cs

/-- `floor_materials?.toLowerCase().includes('hardwood')`. -/
def hasHardwood (s : String) : Bool :=
  containsChars "hardwood".data (s.data.map Char.toLower)

/-- `generator_needed.toLowerCase() === 'yes'`. -/
def isYes (s : String) : Bool := s.data.map Char.toLower = "yes".data

/-- `class_multiplier` as computed in the timeline block:
`1.0 + (row.water_class - 1) * 0.3`. -/
def classMultiplier (c : ℤ) : ℚ := 1 + ((c : ℚ) - 1) * (3/10)

/-- Equipment counts of one room. -/
structure EquipmentCounts where
  large_units : ℤ
  standard_units : ℤ
  air_movers : ℤ
  heaters : ℤ
  air_scrubbers : ℤ
  injection_systems : ℤ
  generator_required : ℤ
  total_units : ℤ
  recommended_dehumidifier_type : String
deriving DecidableEq

/-- Labor cost breakdown of one room. -/
structure LaborCosts where
  tech_hours : ℚ
  tech_cost : ℚ
  supervisor_hours : ℚ
  supervisor_cost : ℚ
  specialist_hours : ℚ
  specialist_cost : ℚ
  project_management : ℚ
  total_labor : ℚ
deriving DecidableEq

/-- Equipment cost breakdown of one room. -/
structure EquipmentCosts where
  daily_cost : ℚ
  total_days : ℤ
  total_equipment : ℚ
deriving DecidableEq

/-- Material cost breakdown of one room. -/
structure MaterialCosts where
  floor_treatment : ℚ
  wall_treatment : ℚ
  ceiling_treatment : ℚ
  disposal : ℚ
  antimicrobial : ℚ
  total_materials : ℚ
deriving DecidableEq

/-- Cost rollup of one room. -/
structure RoomCosts where
  labor : LaborCosts
  equipment : EquipmentCosts
  materials : MaterialCosts
  subtotal : ℚ
  commercial_markup : ℚ
  total_room_cost : ℚ
  cost_per_sqft : ℚ
deriving DecidableEq

/-- Timeline block of one room. -/
structure Timeline where
  estimated_days : ℤ
  daily_monitoring_hours : ℚ
  base_days : ℚ
  class_multiplier : ℚ
  complexity_category : ℤ
  complexity_class : ℤ
deriving DecidableEq

/-- Electrical block of one room. -/
structure Electrical where
  total_amperage : ℚ
  circuits_20a_required : ℤ
  circuits_15a_required : ℤ
  daily_kwh : ℚ
  voltage : String
  generator_needed : ℤ
deriving DecidableEq

/-- Material specification `(thickness, cost, target_mc)`. -/
structure MaterialSpecification where
  thickness : ℚ
  cost : ℚ
  target_mc : ℚ
deriving DecidableEq

/-- Floor entry of the materials detail. -/
structure FloorDetail where
  material_type : String
  material_specs : MaterialSpecification
  affected_sqft : ℚ
  moisture_content : ℚ
  volume_cuft : ℚ
  length_ft : ℚ
  width_ft : ℚ
deriving DecidableEq

/-- Wall entry of the materials detail. -/
structure WallDetail where
  material_type : String
  material_specs : MaterialSpecification
  affected_sqft : ℚ
  moisture_weighted : ℚ
  removal_factor : ℚ
  volume_cuft : ℚ
deriving DecidableEq

/-- Ceiling entry of the materials detail. -/
structure CeilingDetail where
  material_type : String
  material_specs : MaterialSpecification
  affected_sqft : ℚ
  moisture_content : ℚ
  volume_cuft : ℚ
deriving DecidableEq

/-- Materials detail of one room. -/
structure MaterialsDetail where
  floor : FloorDetail
  wall : WallDetail
  ceiling : CeilingDetail
  total_volume : ℚ
  disposal_volume : ℚ
deriving DecidableEq

/-- Full per-room result. -/
structure RoomResult where
  room_id : String
  room_name : String
  room_sf : ℚ
  equipment : EquipmentCounts
  costs : RoomCosts
  timeline : Timeline
  electrical : Electrical
  materials : MaterialsDetail
deriving DecidableEq

/-- `largeUnits = row.room_sf > 1500 ? Math.ceil(row.room_sf / 2500) : 0`. -/
def largeUnits (row : CSVRowData) : ℤ :=
  if row.room_sf > 1500 then Int.ceil (row.room_sf / 2500) else 0

/-- `standardUnits = row.room_sf <= 1500 ? Math.ceil(row.room_sf / 1200) : 0`. -/
def standardUnits (row : CSVRowData) : ℤ :=
  if row.room_sf ≤ 1500 then Int.ceil (row.room_sf / 1200) else 0

/-- `airMovers = Math.ceil(row.room_sf / 400)`. -/
def airMovers (row : CSVRowData) : ℤ := Int.ceil (row.room_sf / 400)

/-- `heaters = row.water_category >= 3 ? 1 : 0`. -/
def heaters (row : CSVRowData) : ℤ := if row.water_category ≥ 3 then 1 else 0

/-- `airScrubbers = row.water_category >= 3 ? 1 : 0`. -/
def airScrubbers (row : CSVRowData) : ℤ := if row.water_category ≥ 3 then 1 else 0

/-- `injectionSystems = floor_materials?.toLowerCase().includes('hardwood') ? 1 : 0`. -/
def injectionSystems (row : CSVRowData) : ℤ :=
  if hasHardwood row.floor_materials then 1 else 0

/-- `generatorRequired = generator_needed.toLowerCase() === 'yes' ? 1 : 0`. -/
def generatorRequired (row : CSVRowData) : ℤ :=
  if isYes row.generator_needed then 1 else 0

/-- `totalUnits` (note: the generator is not included). -/
def totalUnits (row : CSVRowData) : ℤ :=
  largeUnits row + standardUnits row + airMovers row + heaters row
  + airScrubbers row + injectionSystems row

/-- `techHours = totalUnits * 1.25`. -/
def techHours (row : CSVRowData) : ℚ := (totalUnits row : ℚ) * (5/4)

/-- `techCost = techHours * tech_base`. -/
def techCost (cfg : UserConfiguration) (row : CSVRowData) : ℚ :=
  techHours row * cfg.tech_base

/-- `supervisorHours = 2 * (3 + (row.water_class - 1))`. -/
def supervisorHours (row : CSVRowData) : ℚ :=
  2 * (3 + ((row.water_class : ℚ) - 1))

/-- `supervisorCost = supervisorHours * supervisor_base`. -/
def supervisorCost (cfg : UserConfiguration) (row : CSVRowData) : ℚ :=
  supervisorHours row * cfg.supervisor_base

/-- `specialistHours = row.water_category >= 3 ? 4 : 0`. -/
def specialistHours (row : CSVRowData) : ℚ :=
  if row.water_category ≥ 3 then 4 else 0

/-- `specialistCost = specialistHours * specialist_base`. -/
def specialistCost (cfg : UserConfiguration) (row : CSVRowData) : ℚ :=
  specialistHours row * cfg.specialist_base

/-- `totalLabor = techCost + supervisorCost + specialistCost + projectManagement`. -/
def totalLabor (cfg : UserConfiguration) (row : CSVRowData) : ℚ :=
  techCost cfg row + supervisorCost cfg row + specialistCost cfg row
  + cfg.project_management_base

/-- `dailyEquipmentCost`: per-unit daily rates times the counts. -/
def dailyEquipmentCost (cfg : UserConfiguration) (row : CSVRowData) : ℚ :=
  (largeUnits row : ℚ) * cfg.large_dehumidifier_daily
  + (standardUnits row : ℚ) * cfg.standard_dehumidifier_daily
  + (airMovers row : ℚ) * cfg.air_mover_daily
  + (heaters row : ℚ) * cfg.heater_daily
  + (airScrubbers row : ℚ) * cfg.air_scrubber_daily
  + (injectionSystems row : ℚ) * cfg.injection_system_daily
  + (generatorRequired row : ℚ) * cfg.generator_daily

/-- `totalDays = 3 + (row.water_class - 1)`. -/
def totalDays (row : CSVRowData) : ℤ := 3 + (row.water_class - 1)

/-- `totalEquipment = dailyEquipmentCost * totalDays`. -/
def totalEquipment (cfg : UserConfiguration) (row : CSVRowData) : ℚ :=
  dailyEquipmentCost cfg row * (totalDays row : ℚ)

/-- `floorTreatment = row.floor_damage_sf * 2.5`. -/
def floorTreatment (row : CSVRowData) : ℚ := row.floor_damage_sf * (5/2)

/-- `wallTreatment = row.wall_damage_sf * 2.0`. -/
def wallTreatment (row : CSVRowData) : ℚ := row.wall_damage_sf * 2

/-- `antimicrobial = row.water_category >= 3 ? 200 : 0`. -/
def antimicrobial (row : CSVRowData) : ℚ :=
  if row.water_category ≥ 3 then 200 else 0

/-- `totalMaterials = floorTreatment + wallTreatment + ceilingTreatment
+ disposal + antimicrobial` (ceilingTreatment = 0, disposal = 100). -/
def totalMaterials (row : CSVRowData) : ℚ :=
  floorTreatment row + wallTreatment row + 0 + 100 + antimicrobial row

/-- `subtotal = totalLabor + totalEquipment + totalMaterials`. -/
def subtotal (cfg : UserConfiguration) (row : CSVRowData) : ℚ :=
  totalLabor cfg row + totalEquipment cfg row + totalMaterials row

/-- `commercialMarkup = subtotal * 0.15`. -/
def commercialMarkup (cfg : UserConfiguration) (row : CSVRowData) : ℚ :=
  subtotal cfg row * (15/100)

/-- `totalRoomCost = subtotal + commercialMarkup`. -/
def totalRoomCost (cfg : UserConfiguration) (row : CSVRowData) : ℚ :=
  subtotal cfg row + commercialMarkup cfg row

/-- `costPerSqft = totalRoomCost / row.room_sf`. -/
def costPerSqft (cfg : UserConfiguration) (row : CSVRowData) : ℚ :=
  totalRoomCost cfg row / row.room_sf

/-- The per-room body of `valid.map((row, index) => ...)` in the
`/api/csv/process` handler: equipment sizing, labor, equipment, material
costs, rollup, timeline, electrical, and materials detail.  The `let`
bindings of the source are the top-level definitions above. -/
def calcRoom (cfg : UserConfiguration) (row : CSVRowData) : RoomResult :=
  let largeUnits : ℤ := largeUnits row
  let standardUnits : ℤ := standardUnits row
  let airMovers : ℤ := airMovers row
  let heaters : ℤ := heaters row
  let airScrubbers : ℤ := airScrubbers row
  let injectionSystems : ℤ := injectionSystems row
  let generatorRequired : ℤ := generatorRequired row
  let totalUnits : ℤ := totalUnits row
  let techHours : ℚ := techHours row
  let techCost : ℚ := techCost cfg row
  let supervisorHours : ℚ := supervisorHours row
  let supervisorCost : ℚ := supervisorCost cfg row
  let specialistHours : ℚ := specialistHours row
  let specialistCost : ℚ := specialistCost cfg row
  let projectManagement : ℚ := cfg.project_management_base
  let totalLabor : ℚ := totalLabor cfg row
  let dailyEquipmentCost : ℚ := dailyEquipmentCost cfg row
  let totalDays : ℤ := totalDays row
  let totalEquipment : ℚ := totalEquipment cfg row
  let floorTreatment : ℚ := floorTreatment row
  let wallTreatment : ℚ := wallTreatment row
  let ceilingTreatment : ℚ := 0
  let disposal : ℚ := 100
  let antimicrobial : ℚ := antimicrobial row
  let totalMaterials : ℚ := totalMaterials row
  let subtotal : ℚ := subtotal cfg row
  let commercialMarkup : ℚ := commercialMarkup cfg row
  let totalRoomCost : ℚ := totalRoomCost cfg row
  let costPerSqft : ℚ := costPerSqft cfg row
  { room_id := row.room_id
    room_name := row.room_name
    room_sf := row.room_sf
    equipment :=
      { large_units := largeUnits
        standard_units := standardUnits
        air_movers := airMovers
        heaters := heaters
        air_scrubbers := airScrubbers
        injection_systems := injectionSystems
        generator_required := generatorRequired
        total_units := totalUnits
        recommended_dehumidifier_type := "Standard" }
    costs :=
      { labor :=
          { tech_hours := techHours
            tech_cost := techCost
            supervisor_hours := supervisorHours
            supervisor_cost := supervisorCost
            specialist_hours := specialistHours
            specialist_cost := specialistCost
            project_management := projectManagement
            total_labor := totalLabor }
        equipment :=
          { daily_cost := dailyEquipmentCost
            total_days := totalDays
            total_equipment := totalEquipment }
        materials :=
          { floor_treatment := floorTreatment
            wall_treatment := wallTreatment
            ceiling_treatment := ceilingTreatment
            disposal := disposal
            antimicrobial := antimicrobial
            total_materials := totalMaterials }
        subtotal := subtotal
        commercial_markup := commercialMarkup
        total_room_cost := totalRoomCost
        cost_per_sqft := costPerSqft }
    timeline :=
      { estimated_days := 3 + (row.water_class - 1)
        daily_monitoring_hours := 2
        base_days := 3
        class_multiplier := classMultiplier row.water_class
        complexity_category := row.water_category
        complexity_class := row.water_class }
    electrical :=
      { total_amperage := 45
        circuits_20a_required := 1
        circuits_15a_required := 2
        daily_kwh := 24
        voltage := "120V"
        generator_needed := if isYes row.generator_needed then 1 else 0 }
    materials :=
      { floor :=
          { material_type := row.floor_materials
            material_specs := { thickness := 3/4, cost := 5/2, target_mc := 8 }
            affected_sqft := row.floor_damage_sf
            moisture_content := row.floor_materials_moisture
            volume_cuft := row.floor_damage_sf * (3/4) / 12
            length_ft := row.length_ft
            width_ft := row.width_ft }
        wall :=
          { material_type := row.wall_materials
            material_specs := { thickness := 1/2, cost := 9/4, target_mc := 12 }
            affected_sqft := row.wall_damage_sf
            moisture_weighted :=
              row.wall_damage_moisture_bottom * (5/10)
              + row.wall_damage_moisture_middle * (3/10)
              + row.wall_damage_moisture_top * (2/10)
            removal_factor := 1
            volume_cuft := row.wall_damage_sf * (1/2) / 12 }
        ceiling :=
          { material_type := row.ceiling_materials
            material_specs := { thickness := 1/2, cost := 9/4, target_mc := 12 }
            affected_sqft := 0
            moisture_content := row.ceiling_damage_moisture
            volume_cuft := 0 }
        total_volume := 0
        disposal_volume := 0 } }

/-- One entry of `labor_optimization.details`. -/
structure OptimizationDetail where
  timeline : ℤ
  room_count : ℕ
  original_cost : ℚ
  optimized_cost : ℚ
  savings : ℚ
  room_names : String
deriving DecidableEq

/-- The `labor_optimization` block of the project summary. -/
structure LaborOptimization where
  savings : ℚ
  supervision_savings : ℚ
  setup_breakdown_savings : ℚ
  details : List OptimizationDetail
deriving DecidableEq

/-- The `fleet_requirements` block of the project summary. -/
structure FleetRequirements where
  large_dehumidifiers : ℤ
  standard_dehumidifiers : ℤ
  air_movers : ℤ
  heaters : ℤ
  air_scrubbers : ℤ
  injection_systems : ℤ
  generators : ℤ
  total_equipment_units : ℤ
deriving DecidableEq

/-- The `electrical_summary` block of the project summary. -/
structure ElectricalSummary where
  total_circuits_20a : ℤ
  total_circuits_15a : ℤ
  daily_kwh : ℚ
  total_kwh_project : ℚ
  peak_amperage : ℚ
  voltage_standard : String
deriving DecidableEq

/-- `ProjectSummary` (`mockResults.project`).  `longest_timeline` models
`Math.max(...)`, whose value on an empty argument list is `-Infinity`,
as `List.maximum` into `WithBot ℤ` (`⊥` standing for `-Infinity`);
the handler only aggregates non-empty room lists. -/
structure ProjectSummary where
  room_count : ℕ
  total_cost : ℚ
  optimized_total_cost : ℚ
  total_affected_sf : ℚ
  total_equipment_units : ℤ
  total_amperage : ℚ
  longest_timeline : WithBot ℤ
  average_cost_per_sf : ℚ
  fleet_requirements : FleetRequirements
  electrical_summary : ElectricalSummary
  labor_optimization : LaborOptimization
deriving DecidableEq

/-- The project-level aggregation block of the handler (lines 872-912).
The source reads `room_count` and `total_affected_sf` off the `valid` row
list; since `rooms = valid.map(calcRoom ...)` copies `room_sf` and
preserves length, they coincide with `rooms.length` and `Σ room.room_sf`,
so the aggregator is a function of the `RoomResult` list alone. -/
def aggregateProject (rooms : List RoomResult) : ProjectSummary :=
  let projectTotalCost : ℚ := (rooms.map (fun r => r.costs.total_room_cost)).sum
  let projectTotalUnits : ℤ := (rooms.map (fun r => r.equipment.total_units)).sum
  let projectTotalAmperage : ℚ := (rooms.map (fun _ => (45 : ℚ))).sum
  let longestTimeline : WithBot ℤ := (rooms.map (fun r => r.timeline.estimated_days)).maximum
  let totalAffectedSf : ℚ := (rooms.map (fun r => r.room_sf)).sum
  let averageCostPerSf : ℚ := projectTotalCost / totalAffectedSf
  { room_count := rooms.length
    total_cost := projectTotalCost
    optimized_total_cost := projectTotalCost * (95/100)
    total_affected_sf := totalAffectedSf
    total_equipment_units := projectTotalUnits
    total_amperage := projectTotalAmperage
    longest_timeline := longestTimeline
    average_cost_per_sf := averageCostPerSf
    fleet_requirements :=
      { large_dehumidifiers := (rooms.map (fun r => r.equipment.large_units)).sum
        standard_dehumidifiers := (rooms.map (fun r => r.equipment.standard_units)).sum
        air_movers := (rooms.map (fun r => r.equipment.air_movers)).sum
        heaters := (rooms.map (fun r => r.equipment.heaters)).sum
        air_scrubbers := (rooms.map (fun r => r.equipment.air_scrubbers)).sum
        injection_systems := (rooms.map (fun r => r.equipment.injection_systems)).sum
        generators := (rooms.map (fun r => r.equipment.generator_required)).sum
        total_equipment_units := projectTotalUnits }
    electrical_summary :=
      { total_circuits_20a := (rooms.map (fun r => r.electrical.circuits_20a_required)).sum
        total_circuits_15a := (rooms.map (fun r => r.electrical.circuits_15a_required)).sum
        daily_kwh := (rooms.map (fun r => r.electrical.daily_kwh)).sum
        total_kwh_project :=
          (rooms.map (fun r => r.electrical.daily_kwh * (r.timeline.estimated_days : ℚ))).sum
        peak_amperage := projectTotalAmperage
        voltage_standard := "120V" }
    labor_optimization :=
      { savings := projectTotalCost * (5/100)
        supervision_savings := projectTotalCost * (3/100)
        setup_breakdown_savings := projectTotalCost * (2/100)
        details := [] } }

/-- The data-row loop of `parseCSVContent`: rows are enumerated from
line index `i = 1` (the header is line 0) and validated with row number
`i + 1`; an error-free row is appended to `valid`, otherwise the row goes
to `invalid` and its errors are appended.  Returns
`(valid, invalid, errors)`. -/
def parseRowsAux : ℕ → List CSVRowData → List CSVRowData × List CSVRowData × List ValidationError
  | _, [] => ([], [], [])
  | i, row :: rest =>
    let rowErrors := validateCSVRow row (i + 1)
    let tail := parseRowsAux (i + 1) rest
    if rowErrors = [] then (row :: tail.1, tail.2.1, tail.2.2)
    else (tail.1, row :: tail.2.1, rowErrors ++ tail.2.2)

/-- `parseCSVContent` restricted to its data-row loop (header parsing and
CSV text splitting are external to the claims). -/
def parseRows (rows : List CSVRowData) : List CSVRowData × List CSVRowData × List ValidationError :=
  parseRowsAux 1 rows

/-- The full calculation payload of a successful response. -/
structure CalculationResults where
  rooms : List RoomResult
  project : ProjectSummary
deriving DecidableEq

/-- Outcome of the `/api/csv/process` handler after CSV parsing: either
the early `createApiResponse(false, …, 400)` return when no row is valid,
or the `CSVProcessResponse` payload. -/
inductive ProcessOutcome where
  | failure (message : String) (status : ℕ)
  | success (results : CalculationResults) (errors : List ValidationError) (skipped : ℕ)
deriving DecidableEq

/-- Whether the outcome is the success payload. -/
def ProcessOutcome.isSuccess : ProcessOutcome → Bool
  | .failure _ _ => false
  | .success _ _ _ => true

/-- Room results carried by the outcome (none for a failure). -/
def ProcessOutcome.roomResults : ProcessOutcome → List RoomResult
  | .failure _ _ => []
  | .success results _ _ => results.rooms

/-- Error list carried by a success outcome. -/
def ProcessOutcome.errorList : ProcessOutcome → List ValidationError
  | .failure _ _ => []
  | .success _ errors _ => errors

/-- Skipped count carried by a success outcome. -/
def ProcessOutcome.skippedCount : ProcessOutcome → ℕ
  | .failure _ _ => 0
  | .success _ _ skipped => skipped

/-- The `/api/csv/process` handler from CSV parsing onward: validate the
rows; with zero valid rows return the 400 error response whose message
joins all row-error messages; otherwise compute every room and the
project aggregation and return the `CSVProcessResponse` fields
(results, errors, skipped). -/
def processCSV (cfg : UserConfiguration) (rows : List CSVRowData) : ProcessOutcome :=
  let parsed := parseRows rows
  let valid := parsed.1
  let invalid := parsed.2.1
  let errors := parsed.2.2
  if valid = [] then
    .failure ("No valid rows found. Errors: "
      ++ String.intercalate "; " (errors.map (fun e => e.message))) 400
  else
    let rooms := valid.map (calcRoom cfg)
    .success { rooms := rooms, project := aggregateProject rooms } errors invalid.length

/-! ### Concrete inputs used by witnesses and counterexamples -/

/-- A representative valid CSV row (Scenario A shape: 400 sqft,
category 2, class 2). -/
def goodRow : CSVRowData :=
  { claim_id := "CLM-1", room_id := "R1", room_name := "Kitchen",
    generator_needed := "no", floor_materials := "carpet",
    wall_materials := "drywall", ceiling_materials := "drywall",
    water_category := 2, water_class := 2,
    room_sf := 400, room_temp_f := 72, room_humidity := 50,
    ceiling_damage_moisture := 1/10, wall_damage_moisture_bottom := 3/10,
    wall_damage_moisture_middle := 1/4, wall_damage_moisture_top := 1/5,
    floor_materials_moisture := 3/10, wall_damage_sf := 100,
    floor_damage_sf := 150, length_ft := 20, width_ft := 20 }

/-! ### Helper lemmas -/

/-- Rewrite a ceiling as a floor so that concrete values can be computed
by the `norm_num` floor extension. -/
theorem ceil_eq_neg_floor (a : ℚ) : Int.ceil a = -Int.floor (-a) := by
  rw [Int.floor_neg, neg_neg]

/-- An `if`-guarded singleton error list is empty exactly when the guard
fails. -/
theorem ite_singleton_eq_nil {c : Prop} [Decidable c] {e : ValidationError}
    (h : (if c then [e] else []) = []) : ¬c := by
  intro hc
  rw [if_pos hc] at h
  exact List.cons_ne_nil e [] h

/-- Unfolding of an empty validator result into the individual range
facts. -/
theorem validateCSVRow_eq_nil (row : CSVRowData) (n : ℕ)
    (h : validateCSVRow row n = []) :
    requiredFieldErrors row n = []
    ∧ (1 ≤ row.water_category ∧ row.water_category ≤ 3)
    ∧ (1 ≤ row.water_class ∧ row.water_class ≤ 4)
    ∧ (50 ≤ row.room_sf ∧ row.room_sf ≤ 5000)
    ∧ (60 ≤ row.room_temp_f ∧ row.room_temp_f ≤ 100)
    ∧ (20 ≤ row.room_humidity ∧ row.room_humidity ≤ 90)
    ∧ moistureErrors row n = [] := by
  unfold validateCSVRow at h
  simp only [List.append_eq_nil, and_assoc] at h
  obtain ⟨h1, h2, h3, h4, h5, h6, h7⟩ := h
  have g2 := ite_singleton_eq_nil h2
  have g3 := ite_singleton_eq_nil h3
  have g4 := ite_singleton_eq_nil h4
  have g5 := ite_singleton_eq_nil h5
  have g6 := ite_singleton_eq_nil h6
  push_neg at g2 g3 g4 g5 g6
  exact ⟨h1, ⟨g2.1, g2.2⟩, ⟨g3.1, g3.2⟩, ⟨g4.1, g4.2⟩, ⟨g5.1, g5.2⟩, ⟨g6.1, g6.2⟩, h7⟩

/-- Bounds on `water_class` for a valid row. -/
theorem rowOK_water_class {row : CSVRowData} (h : RowOK row) :
    1 ≤ row.water_class ∧ row.water_class ≤ 4 :=
  (validateCSVRow_eq_nil row 2 h).2.2.1

/-- Bounds on `water_category` for a valid row. -/
theorem rowOK_water_category {row : CSVRowData} (h : RowOK row) :
    1 ≤ row.water_category ∧ row.water_category ≤ 3 :=
  (validateCSVRow_eq_nil row 2 h).2.1

/-- Bounds on `room_sf` for a valid row. -/
theorem rowOK_room_sf {row : CSVRowData} (h : RowOK row) :
    50 ≤ row.room_sf ∧ row.room_sf ≤ 5000 :=
  (validateCSVRow_eq_nil row 2 h).2.2.2.1

/-! ### C3 : rollup identities -/

/-- C3: for every valid room, `subtotal = total_labor + total_equipment +
total_materials`, `commercial_markup = subtotal × 0.15`, and
`total_room_cost = subtotal × 1.15` exactly. -/
theorem C3_rollup (cfg : UserConfiguration) (row : CSVRowData) (h : RowOK row) :
    (calcRoom cfg row).costs.subtotal
        = (calcRoom cfg row).costs.labor.total_labor
          + (calcRoom cfg row).costs.equipment.total_equipment
          + (calcRoom cfg row).costs.materials.total_materials
    ∧ (calcRoom cfg row).costs.commercial_markup
        = (calcRoom cfg row).costs.subtotal * (15/100)
    ∧ (calcRoom cfg row).costs.total_room_cost
        = (calcRoom cfg row).costs.subtotal * (115/100) := by
  refine ⟨rfl, rfl, ?_⟩
  simp only [calcRoom, totalRoomCost, commercialMarkup]
  ring

/-- C3 witness at a concrete valid row with the default configuration. -/
theorem C3_rollup_witness :
    RowOK goodRow
    ∧ (calcRoom DEFAULT_CONFIGURATION goodRow).costs.total_room_cost
        = (calcRoom DEFAULT_CONFIGURATION goodRow).costs.subtotal * (115/100) := by
  have h : RowOK goodRow := by
    norm_num +decide [RowOK, validateCSVRow, goodRow, requiredFieldErrors, jsTrimEmpty,
      moistureErrors, moistureFields]
  exact ⟨h, (C3_rollup DEFAULT_CONFIGURATION goodRow h).2.2⟩

/-! ### C10 : dehumidifier class selection -/

/-- C10: for every valid room exactly one dehumidifier class is selected:
above 1500 sqft, `large_units = ceil(room_sf / 2500) ≥ 1` and
`standard_units = 0`; otherwise `standard_units = ceil(room_sf / 1200) ≥ 1`
and `large_units = 0`; the two counts are never both positive and never
both zero. -/
theorem C10_dehumidifier_selection (cfg : UserConfiguration) (row : CSVRowData)
    (h : RowOK row) :
    (row.room_sf > 1500 →
      (calcRoom cfg row).equipment.large_units = Int.ceil (row.room_sf / 2500)
      ∧ 1 ≤ (calcRoom cfg row).equipment.large_units
      ∧ (calcRoom cfg row).equipment.standard_units = 0)
    ∧ (row.room_sf ≤ 1500 →
      (calcRoom cfg row).equipment.standard_units = Int.ceil (row.room_sf / 1200)
      ∧ 1 ≤ (calcRoom cfg row).equipment.standard_units
      ∧ (calcRoom cfg row).equipment.large_units = 0)
    ∧ ¬(0 < (calcRoom cfg row).equipment.large_units
        ∧ 0 < (calcRoom cfg row).equipment.standard_units)
    ∧ (0 < (calcRoom cfg row).equipment.large_units
        ∨ 0 < (calcRoom cfg row).equipment.standard_units) := by
  have hsf := rowOK_room_sf h
  have hpos : (0:ℚ) < row.room_sf := lt_of_lt_of_le (by norm_num) hsf.1
  simp only [calcRoom, largeUnits, standardUnits]
  constructor
  · intro hgt
    rw [if_pos hgt, if_neg (not_le.mpr hgt)]
    refine ⟨rfl, ?_, rfl⟩
    rw [Int.one_le_ceil_iff]
    positivity
  constructor
  · intro hle
    rw [if_pos hle, if_neg (not_lt.mpr hle)]
    refine ⟨rfl, ?_, rfl⟩
    rw [Int.one_le_ceil_iff]
    positivity
  by_cases hgt : row.room_sf > 1500
  · rw [if_pos hgt, if_neg (not_le.mpr hgt)]
    refine ⟨fun hc => lt_irrefl 0 hc.2, Or.inl ?_⟩
    rw [Int.lt_ceil]
    push_cast
    positivity
  · rw [if_neg hgt, if_pos (not_lt.mp hgt)]
    refine ⟨fun hc => lt_irrefl 0 hc.1, Or.inr ?_⟩
    rw [Int.lt_ceil]
    push_cast
    positivity

/-- C10 witness at a concrete valid 400 sqft row. -/
theorem C10_dehumidifier_selection_witness :
    RowOK goodRow
    ∧ ¬(0 < (calcRoom DEFAULT_CONFIGURATION goodRow).equipment.large_units
        ∧ 0 < (calcRoom DEFAULT_CONFIGURATION goodRow).equipment.standard_units) := by
  have h : RowOK goodRow := by
    norm_num +decide [RowOK, validateCSVRow, goodRow, requiredFieldErrors, jsTrimEmpty,
      moistureErrors, moistureFields]
  exact ⟨h, (C10_dehumidifier_selection DEFAULT_CONFIGURATION goodRow h).2.2.1⟩

/-! ### C4 : timeline -/

/-- C4: for every valid room, `estimated_days = ceil(base_days ×
class_multiplier(water_class))`, `class_multiplier` is monotone
non-decreasing in `water_class`, `daily_monitoring_hours` is the fixed
constant 2, and for `water_class = 2` (base_days = 3) the estimate is
`ceil(3 × class_multiplier(2))`. -/
theorem C4_timeline (cfg : UserConfiguration) (row : CSVRowData) (h : RowOK row) :
    (calcRoom cfg row).timeline.estimated_days
        = Int.ceil ((calcRoom cfg row).timeline.base_days
            * classMultiplier row.water_class)
    ∧ (calcRoom cfg row).timeline.class_multiplier = classMultiplier row.water_class
    ∧ (∀ c₁ c₂ : ℤ, c₁ ≤ c₂ → classMultiplier c₁ ≤ classMultiplier c₂)
    ∧ (calcRoom cfg row).timeline.daily_monitoring_hours = 2
    ∧ (row.water_class = 2 →
        (calcRoom cfg row).timeline.estimated_days
          = Int.ceil ((3:ℚ) * classMultiplier 2)) := by
  have hc := rowOK_water_class h
  have hmain : (calcRoom cfg row).timeline.estimated_days
      = Int.ceil ((calcRoom cfg row).timeline.base_days
          * classMultiplier row.water_class) := by
    simp only [calcRoom]
    obtain ⟨h1, h4⟩ := hc
    interval_cases row.water_class <;>
      norm_num [classMultiplier, ceil_eq_neg_floor]
  refine ⟨hmain, rfl, ?_, rfl, ?_⟩
  · intro c₁ c₂ hle
    unfold classMultiplier
    have : (c₁ : ℚ) ≤ (c₂ : ℚ) := Int.cast_le.mpr hle
    nlinarith
  · intro h2
    rw [hmain, h2]
    simp only [calcRoom]

/-- C4 witness at a concrete valid class-2 row. -/
theorem C4_timeline_witness :
    RowOK goodRow
    ∧ (calcRoom DEFAULT_CONFIGURATION goodRow).timeline.estimated_days
        = Int.ceil ((calcRoom DEFAULT_CONFIGURATION goodRow).timeline.base_days
            * classMultiplier goodRow.water_class) := by
  have h : RowOK goodRow := by
    norm_num +decide [RowOK, validateCSVRow, goodRow, requiredFieldErrors, jsTrimEmpty,
      moistureErrors, moistureFields]
  exact ⟨h, (C4_timeline DEFAULT_CONFIGURATION goodRow h).1⟩

/-! ### C5 : material treatment costs -/

/-- C5 counterexample: at a valid row with 100 sqft of wall damage, the
charged wall treatment (100 × 2.0 = 200) differs from the wall detail's
resolved specification cost times its affected square footage
(100 × 2.25 = 225), so the claim fails as stated. -/
theorem C5_materials_counterexample :
    RowOK goodRow
    ∧ (calcRoom DEFAULT_CONFIGURATION goodRow).costs.materials.wall_treatment
        ≠ (calcRoom DEFAULT_CONFIGURATION goodRow).materials.wall.affected_sqft
          * (calcRoom DEFAULT_CONFIGURATION goodRow).materials.wall.material_specs.cost := by
  constructor
  · norm_num +decide [RowOK, validateCSVRow, goodRow, requiredFieldErrors, jsTrimEmpty,
      moistureErrors, moistureFields]
  · norm_num [calcRoom, goodRow, wallTreatment]

/-- C5 amended: floor and ceiling treatments equal affected square footage
times the resolved specification cost reported in the materials detail,
but the wall treatment is charged at a flat 2.0 per sqft, which differs
from the wall detail's reported specification cost of 2.25;
`total_materials` is the sum of the three treatments plus disposal plus
antimicrobial. -/
theorem C5_materials_amended (cfg : UserConfiguration) (row : CSVRowData)
    (h : RowOK row) :
    (calcRoom cfg row).costs.materials.floor_treatment
        = (calcRoom cfg row).materials.floor.affected_sqft
          * (calcRoom cfg row).materials.floor.material_specs.cost
    ∧ (calcRoom cfg row).costs.materials.ceiling_treatment
        = (calcRoom cfg row).materials.ceiling.affected_sqft
          * (calcRoom cfg row).materials.ceiling.material_specs.cost
    ∧ (calcRoom cfg row).costs.materials.wall_treatment
        = (calcRoom cfg row).materials.wall.affected_sqft * 2
    ∧ (calcRoom cfg row).materials.wall.material_specs.cost = 9/4
    ∧ (calcRoom cfg row).costs.materials.total_materials
        = (calcRoom cfg row).costs.materials.floor_treatment
          + (calcRoom cfg row).costs.materials.wall_treatment
          + (calcRoom cfg row).costs.materials.ceiling_treatment
          + (calcRoom cfg row).costs.materials.disposal
          + (calcRoom cfg row).costs.materials.antimicrobial := by
  refine ⟨rfl, ?_, rfl, rfl, ?_⟩ <;> simp only [calcRoom, totalMaterials] <;> ring

/-- C5 amended witness at a concrete valid row. -/
theorem C5_materials_amended_witness :
    RowOK goodRow
    ∧ (calcRoom DEFAULT_CONFIGURATION goodRow).costs.materials.wall_treatment
        = (calcRoom DEFAULT_CONFIGURATION goodRow).materials.wall.affected_sqft * 2 := by
  have h : RowOK goodRow := by
    norm_num +decide [RowOK, validateCSVRow, goodRow, requiredFieldErrors, jsTrimEmpty,
      moistureErrors, moistureFields]
  exact ⟨h, (C5_materials_amended DEFAULT_CONFIGURATION goodRow h).2.2.1⟩

/-! ### C6 : electrical outputs -/

/-- A large valid room (3000 sqft) with more equipment than `goodRow`. -/
def bigRow : CSVRowData :=
  { goodRow with room_id := "R2", room_name := "Warehouse", room_sf := 3000 }

/-- C6 counterexample: two valid rooms with different equipment counts
(2 vs 10 units) receive the same `total_amperage` of 45, so amperage is
not a sum of per-equipment draws that distinguishes equipment counts. -/
theorem C6_electrical_counterexample :
    RowOK goodRow
    ∧ RowOK bigRow
    ∧ (calcRoom DEFAULT_CONFIGURATION goodRow).equipment.total_units
        ≠ (calcRoom DEFAULT_CONFIGURATION bigRow).equipment.total_units
    ∧ (calcRoom DEFAULT_CONFIGURATION goodRow).electrical.total_amperage
        = (calcRoom DEFAULT_CONFIGURATION bigRow).electrical.total_amperage := by
  refine ⟨?_, ?_, ?_, rfl⟩
  · norm_num +decide [RowOK, validateCSVRow, goodRow, requiredFieldErrors, jsTrimEmpty,
      moistureErrors, moistureFields]
  · norm_num +decide [RowOK, validateCSVRow, bigRow, goodRow, requiredFieldErrors,
      jsTrimEmpty, moistureErrors, moistureFields]
  · norm_num +decide [calcRoom, goodRow, bigRow, totalUnits, largeUnits, standardUnits,
      airMovers, heaters, airScrubbers, injectionSystems, hasHardwood, isYes,
      containsChars, isPrefixChars, ceil_eq_neg_floor]

/-- C6 amended: for every valid room the electrical block is constant —
`total_amperage = 45`, one 20A and two 15A circuits, `daily_kwh = 24` —
except that `generator_needed` passes through the input flag
(1 exactly when `generator_needed` is a case-insensitive "yes"). -/
theorem C6_electrical_amended (cfg : UserConfiguration) (row : CSVRowData)
    (h : RowOK row) :
    (calcRoom cfg row).electrical.total_amperage = 45
    ∧ (calcRoom cfg row).electrical.circuits_20a_required = 1
    ∧ (calcRoom cfg row).electrical.circuits_15a_required = 2
    ∧ (calcRoom cfg row).electrical.daily_kwh = 24
    ∧ (calcRoom cfg row).electrical.generator_needed
        = (if isYes row.generator_needed then 1 else 0) :=
  ⟨rfl, rfl, rfl, rfl, rfl⟩

/-- C6 amended witness at a concrete valid row. -/
theorem C6_electrical_amended_witness :
    RowOK goodRow
    ∧ (calcRoom DEFAULT_CONFIGURATION goodRow).electrical.total_amperage = 45 := by
  have h : RowOK goodRow := by
    norm_num +decide [RowOK, validateCSVRow, goodRow, requiredFieldErrors, jsTrimEmpty,
      moistureErrors, moistureFields]
  exact ⟨h, (C6_electrical_amended DEFAULT_CONFIGURATION goodRow h).1⟩

/-! ### C8 : non-negativity of outputs -/

/-- All rate knobs used by the calculator are non-negative (the external
configuration layer range-checks each to a positive interval). -/
def NonnegConfig (cfg : UserConfiguration) : Prop :=
  0 ≤ cfg.tech_base ∧ 0 ≤ cfg.supervisor_base ∧ 0 ≤ cfg.specialist_base
  ∧ 0 ≤ cfg.project_management_base ∧ 0 ≤ cfg.large_dehumidifier_daily
  ∧ 0 ≤ cfg.standard_dehumidifier_daily ∧ 0 ≤ cfg.air_mover_daily
  ∧ 0 ≤ cfg.heater_daily ∧ 0 ≤ cfg.air_scrubber_daily
  ∧ 0 ≤ cfg.injection_system_daily ∧ 0 ≤ cfg.generator_daily

/-- Large-unit count is non-negative for a positive room size. -/
theorem largeUnits_nonneg {row : CSVRowData} (h : 0 ≤ row.room_sf) :
    0 ≤ largeUnits row := by
  unfold largeUnits
  split
  · exact Int.ceil_nonneg (by positivity)
  · exact le_refl 0

/-- Standard-unit count is non-negative for a positive room size. -/
theorem standardUnits_nonneg {row : CSVRowData} (h : 0 ≤ row.room_sf) :
    0 ≤ standardUnits row := by
  unfold standardUnits
  split
  · exact Int.ceil_nonneg (by positivity)
  · exact le_refl 0

/-- Air-mover count is non-negative for a positive room size. -/
theorem airMovers_nonneg {row : CSVRowData} (h : 0 ≤ row.room_sf) :
    0 ≤ airMovers row :=
  Int.ceil_nonneg (by positivity)

/-- Heater count is 0 or 1. -/
theorem heaters_nonneg (row : CSVRowData) : 0 ≤ heaters row := by
  unfold heaters; split <;> norm_num

/-- Air-scrubber count is 0 or 1. -/
theorem airScrubbers_nonneg (row : CSVRowData) : 0 ≤ airScrubbers row := by
  unfold airScrubbers; split <;> norm_num

/-- Injection-system count is 0 or 1. -/
theorem injectionSystems_nonneg (row : CSVRowData) : 0 ≤ injectionSystems row := by
  unfold injectionSystems; split <;> norm_num

/-- Generator count is 0 or 1. -/
theorem generatorRequired_nonneg (row : CSVRowData) : 0 ≤ generatorRequired row := by
  unfold generatorRequired; split <;> norm_num

/-- Total unit count is non-negative for a positive room size. -/
theorem totalUnits_nonneg {row : CSVRowData} (h : 0 ≤ row.room_sf) :
    0 ≤ totalUnits row := by
  unfold totalUnits
  have h1 := largeUnits_nonneg h
  have h2 := standardUnits_nonneg h
  have h3 := airMovers_nonneg h
  have h4 := heaters_nonneg row
  have h5 := airScrubbers_nonneg row
  have h6 := injectionSystems_nonneg row
  omega

/-- Total labor cost is non-negative under a non-negative configuration. -/
theorem totalLabor_nonneg {cfg : UserConfiguration} {row : CSVRowData}
    (hcfg : NonnegConfig cfg) (hsf : 0 ≤ row.room_sf) (hcl : 1 ≤ row.water_class) :
    0 ≤ totalLabor cfg row := by
  obtain ⟨c1, c2, c3, c4, _⟩ := hcfg
  have hu : (0:ℚ) ≤ (totalUnits row : ℚ) := by exact_mod_cast totalUnits_nonneg hsf
  have hclq : (1:ℚ) ≤ (row.water_class : ℚ) := by exact_mod_cast hcl
  have hsp : (0:ℚ) ≤ specialistHours row := by unfold specialistHours; split <;> norm_num
  unfold totalLabor techCost techHours supervisorCost supervisorHours specialistCost
  have t1 : (0:ℚ) ≤ (totalUnits row : ℚ) * (5/4) * cfg.tech_base := by positivity
  have t2 : (0:ℚ) ≤ 2 * (3 + ((row.water_class : ℚ) - 1)) * cfg.supervisor_base := by
    have : (0:ℚ) ≤ 3 + ((row.water_class : ℚ) - 1) := by linarith
    positivity
  have t3 : (0:ℚ) ≤ specialistHours row * cfg.specialist_base := mul_nonneg hsp c3
  linarith

/-- Total equipment cost is non-negative under a non-negative
configuration. -/
theorem totalEquipment_nonneg {cfg : UserConfiguration} {row : CSVRowData}
    (hcfg : NonnegConfig cfg) (hsf : 0 ≤ row.room_sf) (hcl : 1 ≤ row.water_class) :
    0 ≤ totalEquipment cfg row := by
  obtain ⟨_, _, _, _, c5, c6, c7, c8, c9, c10, c11⟩ := hcfg
  have h1 : (0:ℚ) ≤ (largeUnits row : ℚ) := by exact_mod_cast largeUnits_nonneg hsf
  have h2 : (0:ℚ) ≤ (standardUnits row : ℚ) := by exact_mod_cast standardUnits_nonneg hsf
  have h3 : (0:ℚ) ≤ (airMovers row : ℚ) := by exact_mod_cast airMovers_nonneg hsf
  have h4 : (0:ℚ) ≤ (heaters row : ℚ) := by exact_mod_cast heaters_nonneg row
  have h5 : (0:ℚ) ≤ (airScrubbers row : ℚ) := by exact_mod_cast airScrubbers_nonneg row
  have h6 : (0:ℚ) ≤ (injectionSystems row : ℚ) := by
    exact_mod_cast injectionSystems_nonneg row
  have h7 : (0:ℚ) ≤ (generatorRequired row : ℚ) := by
    exact_mod_cast generatorRequired_nonneg row
  have hdaily : 0 ≤ dailyEquipmentCost cfg row := by
    unfold dailyEquipmentCost
    have := mul_nonneg h1 c5
    have := mul_nonneg h2 c6
    have := mul_nonneg h3 c7
    have := mul_nonneg h4 c8
    have := mul_nonneg h5 c9
    have := mul_nonneg h6 c10
    have := mul_nonneg h7 c11
    linarith
  have hdays : (0:ℚ) ≤ (totalDays row : ℚ) := by
    have : 0 ≤ totalDays row := by unfold totalDays; omega
    exact_mod_cast this
  unfold totalEquipment
  exact mul_nonneg hdaily hdays

/-- Total material cost is non-negative when the damage square footages
are non-negative. -/
theorem totalMaterials_nonneg {row : CSVRowData}
    (hfd : 0 ≤ row.floor_damage_sf) (hwd : 0 ≤ row.wall_damage_sf) :
    0 ≤ totalMaterials row := by
  have ha : (0:ℚ) ≤ antimicrobial row := by unfold antimicrobial; split <;> norm_num
  unfold totalMaterials floorTreatment wallTreatment
  have h1 : (0:ℚ) ≤ row.floor_damage_sf * (5/2) := by positivity
  have h2 : (0:ℚ) ≤ row.wall_damage_sf * 2 := by positivity
  linarith

/-- The subtotal is non-negative under the combined hypotheses. -/
theorem subtotal_nonneg {cfg : UserConfiguration} {row : CSVRowData}
    (hcfg : NonnegConfig cfg) (hsf : 0 ≤ row.room_sf) (hcl : 1 ≤ row.water_class)
    (hfd : 0 ≤ row.floor_damage_sf) (hwd : 0 ≤ row.wall_damage_sf) :
    0 ≤ subtotal cfg row := by
  unfold subtotal
  have := totalLabor_nonneg hcfg hsf hcl
  have := totalEquipment_nonneg hcfg hsf hcl
  have := totalMaterials_nonneg hfd hwd
  linarith

/-- C8 counterexample: a row with `floor_damage_sf = -1000` passes the
Row Validator (which never checks the damage square footages), yet its
`total_materials` cost is negative, so the claim fails as stated. -/
theorem C8_nonneg_counterexample :
    RowOK { goodRow with floor_damage_sf := -1000 }
    ∧ (calcRoom DEFAULT_CONFIGURATION
        { goodRow with floor_damage_sf := -1000 }).costs.materials.total_materials < 0 := by
  constructor
  · norm_num +decide [RowOK, validateCSVRow, goodRow, requiredFieldErrors, jsTrimEmpty,
      moistureErrors, moistureFields]
  · norm_num [calcRoom, goodRow, totalMaterials, floorTreatment, wallTreatment,
      antimicrobial]

/-- C8 amended: for every validated row, all listed cost figures and
equipment counts are non-negative, provided the rate configuration is
non-negative (guaranteed by the external range checks) and the floor and
wall damage square footages are non-negative — the validator itself does
not check the latter two. -/
theorem C8_nonneg_amended (cfg : UserConfiguration) (row : CSVRowData)
    (hcfg : NonnegConfig cfg) (h : RowOK row)
    (hfd : 0 ≤ row.floor_damage_sf) (hwd : 0 ≤ row.wall_damage_sf) :
    0 ≤ (calcRoom cfg row).costs.labor.total_labor
    ∧ 0 ≤ (calcRoom cfg row).costs.equipment.total_equipment
    ∧ 0 ≤ (calcRoom cfg row).costs.materials.total_materials
    ∧ 0 ≤ (calcRoom cfg row).costs.subtotal
    ∧ 0 ≤ (calcRoom cfg row).costs.commercial_markup
    ∧ 0 ≤ (calcRoom cfg row).costs.total_room_cost
    ∧ 0 ≤ (calcRoom cfg row).costs.cost_per_sqft
    ∧ 0 ≤ (calcRoom cfg row).equipment.large_units
    ∧ 0 ≤ (calcRoom cfg row).equipment.standard_units
    ∧ 0 ≤ (calcRoom cfg row).equipment.air_movers
    ∧ 0 ≤ (calcRoom cfg row).equipment.heaters
    ∧ 0 ≤ (calcRoom cfg row).equipment.air_scrubbers
    ∧ 0 ≤ (calcRoom cfg row).equipment.injection_systems
    ∧ 0 ≤ (calcRoom cfg row).equipment.generator_required
    ∧ 0 ≤ (calcRoom cfg row).equipment.total_units := by
  have hb := rowOK_room_sf h
  have hsf : (0:ℚ) ≤ row.room_sf := le_trans (by norm_num) hb.1
  have hsfpos : (0:ℚ) < row.room_sf := lt_of_lt_of_le (by norm_num) hb.1
  have hcl := (rowOK_water_class h).1
  have hsub := subtotal_nonneg hcfg hsf hcl hfd hwd
  have hmk : 0 ≤ commercialMarkup cfg row := by
    unfold commercialMarkup; positivity
  have htot : 0 ≤ totalRoomCost cfg row := by
    unfold totalRoomCost; linarith
  refine ⟨totalLabor_nonneg hcfg hsf hcl, totalEquipment_nonneg hcfg hsf hcl,
    totalMaterials_nonneg hfd hwd, hsub, hmk, htot, ?_,
    largeUnits_nonneg hsf, standardUnits_nonneg hsf, airMovers_nonneg hsf,
    heaters_nonneg row, airScrubbers_nonneg row, injectionSystems_nonneg row,
    generatorRequired_nonneg row, totalUnits_nonneg hsf⟩
  show 0 ≤ costPerSqft cfg row
  unfold costPerSqft
  exact div_nonneg htot (le_of_lt hsfpos)

/-- C8 amended witness at a concrete valid row with the default
configuration. -/
theorem C8_nonneg_amended_witness :
    NonnegConfig DEFAULT_CONFIGURATION
    ∧ RowOK goodRow
    ∧ (0:ℚ) ≤ goodRow.floor_damage_sf
    ∧ (0:ℚ) ≤ goodRow.wall_damage_sf
    ∧ 0 ≤ (calcRoom DEFAULT_CONFIGURATION goodRow).costs.total_room_cost := by
  have hcfg : NonnegConfig DEFAULT_CONFIGURATION := by
    norm_num [NonnegConfig, DEFAULT_CONFIGURATION]
  have h : RowOK goodRow := by
    norm_num +decide [RowOK, validateCSVRow, goodRow, requiredFieldErrors, jsTrimEmpty,
      moistureErrors, moistureFields]
  have hfd : (0:ℚ) ≤ goodRow.floor_damage_sf := by norm_num [goodRow]
  have hwd : (0:ℚ) ≤ goodRow.wall_damage_sf := by norm_num [goodRow]
  exact ⟨hcfg, h, hfd, hwd,
    (C8_nonneg_amended DEFAULT_CONFIGURATION goodRow hcfg h hfd hwd).2.2.2.2.2.1⟩

/-! ### C7 : determinism and order-independence of the aggregator -/

/-- `List.maximum` is invariant under permutation. -/
theorem maximum_perm {l₁ l₂ : List ℤ} (p : l₁.Perm l₂) : l₁.maximum = l₂.maximum := by
  induction p with
  | nil => rfl
  | cons a p ih => rw [List.maximum_cons, List.maximum_cons, ih]
  | swap a b l =>
      rw [List.maximum_cons, List.maximum_cons, List.maximum_cons, List.maximum_cons]
      exact max_left_comm _ _ _
  | trans p₁ p₂ ih₁ ih₂ => rw [ih₁, ih₂]

/-- C7: the Project Aggregator is a deterministic pure function of its
RoomResult list — evaluating it twice gives the identical summary — and
permuting the input list leaves every field of the summary unchanged. -/
theorem C7_aggregator_perm (l₁ l₂ : List RoomResult) (p : l₁.Perm l₂) :
    aggregateProject l₁ = aggregateProject l₁
    ∧ aggregateProject l₁ = aggregateProject l₂ := by
  refine ⟨rfl, ?_⟩
  simp only [aggregateProject]
  rw [p.length_eq,
    (p.map (fun r => r.costs.total_room_cost)).sum_eq,
    (p.map (fun r => r.equipment.total_units)).sum_eq,
    (p.map (fun _ => (45:ℚ))).sum_eq,
    maximum_perm (p.map (fun r => r.timeline.estimated_days)),
    (p.map (fun r => r.room_sf)).sum_eq,
    (p.map (fun r => r.equipment.large_units)).sum_eq,
    (p.map (fun r => r.equipment.standard_units)).sum_eq,
    (p.map (fun r => r.equipment.air_movers)).sum_eq,
    (p.map (fun r => r.equipment.heaters)).sum_eq,
    (p.map (fun r => r.equipment.air_scrubbers)).sum_eq,
    (p.map (fun r => r.equipment.injection_systems)).sum_eq,
    (p.map (fun r => r.equipment.generator_required)).sum_eq,
    (p.map (fun r => r.electrical.circuits_20a_required)).sum_eq,
    (p.map (fun r => r.electrical.circuits_15a_required)).sum_eq,
    (p.map (fun r => r.electrical.daily_kwh)).sum_eq,
    (p.map (fun r => r.electrical.daily_kwh * (r.timeline.estimated_days : ℚ))).sum_eq]

/-- C7 witness: swapping two concrete rooms leaves the summary
unchanged. -/
theorem C7_aggregator_perm_witness :
    ([calcRoom DEFAULT_CONFIGURATION goodRow,
      calcRoom DEFAULT_CONFIGURATION bigRow].Perm
      [calcRoom DEFAULT_CONFIGURATION bigRow,
       calcRoom DEFAULT_CONFIGURATION goodRow])
    ∧ aggregateProject
        [calcRoom DEFAULT_CONFIGURATION goodRow, calcRoom DEFAULT_CONFIGURATION bigRow]
      = aggregateProject
        [calcRoom DEFAULT_CONFIGURATION bigRow, calcRoom DEFAULT_CONFIGURATION goodRow] := by
  have hp : ([calcRoom DEFAULT_CONFIGURATION goodRow,
      calcRoom DEFAULT_CONFIGURATION bigRow].Perm
      [calcRoom DEFAULT_CONFIGURATION bigRow,
       calcRoom DEFAULT_CONFIGURATION goodRow]) :=
    List.Perm.swap _ _ _
  exact ⟨hp, (C7_aggregator_perm _ _ hp).2⟩

/-! ### C1 : labor optimization pass -/

/-- Modelled from the spec: the claimed optimization pass "groups rooms by
identical estimated_days" and "emits one `details[]` entry per bucket".
This lists the distinct timelines, i.e. the buckets the claim expects a
details entry for. -/
def specBucketTimelines (rooms : List RoomResult) : List ℤ :=
  (rooms.map (fun r => r.timeline.estimated_days)).dedup

/-- C1 counterexample: two valid rooms share the same `estimated_days`,
so the claimed pass has one bucket (with two rooms) and must emit one
`details[]` entry for it; the code's `labor_optimization.details` is
always the empty list. -/
theorem C1_optimization_counterexample :
    (calcRoom DEFAULT_CONFIGURATION goodRow).timeline.estimated_days
        = (calcRoom DEFAULT_CONFIGURATION bigRow).timeline.estimated_days
    ∧ (specBucketTimelines
        [calcRoom DEFAULT_CONFIGURATION goodRow,
         calcRoom DEFAULT_CONFIGURATION bigRow]).length = 1
    ∧ (aggregateProject
        [calcRoom DEFAULT_CONFIGURATION goodRow,
         calcRoom DEFAULT_CONFIGURATION bigRow]).labor_optimization.details.length = 0 := by
  refine ⟨rfl, ?_, rfl⟩
  norm_num [specBucketTimelines, calcRoom, goodRow, bigRow, List.dedup_cons_of_mem]

/-- C1 amended: the labor-optimization block of the aggregator reports
flat percentages of the project total — `savings = 5%`,
`supervision_savings = 3%`, `setup_breakdown_savings = 2%` of
`total_cost` — with an always-empty `details` list; there is no grouping
by timeline.  `optimized_total_cost = total_cost × 0.95`, which equals
`total_cost − savings`. -/
theorem C1_optimization_amended (rooms : List RoomResult) (hne : rooms ≠ []) :
    (aggregateProject rooms).labor_optimization.savings
        = (aggregateProject rooms).total_cost * (5/100)
    ∧ (aggregateProject rooms).labor_optimization.supervision_savings
        = (aggregateProject rooms).total_cost * (3/100)
    ∧ (aggregateProject rooms).labor_optimization.setup_breakdown_savings
        = (aggregateProject rooms).total_cost * (2/100)
    ∧ (aggregateProject rooms).labor_optimization.details = []
    ∧ (aggregateProject rooms).optimized_total_cost
        = (aggregateProject rooms).total_cost
          - (aggregateProject rooms).labor_optimization.savings := by
  refine ⟨rfl, rfl, rfl, rfl, ?_⟩
  simp only [aggregateProject]
  ring

/-- C1 amended witness on a concrete non-empty room list. -/
theorem C1_optimization_amended_witness :
    [calcRoom DEFAULT_CONFIGURATION goodRow] ≠ []
    ∧ (aggregateProject [calcRoom DEFAULT_CONFIGURATION goodRow]).optimized_total_cost
        = (aggregateProject [calcRoom DEFAULT_CONFIGURATION goodRow]).total_cost
          - (aggregateProject
              [calcRoom DEFAULT_CONFIGURATION goodRow]).labor_optimization.savings := by
  have hne : [calcRoom DEFAULT_CONFIGURATION goodRow] ≠ [] := by simp
  exact ⟨hne, (C1_optimization_amended _ hne).2.2.2.2⟩

/-! ### C2 : batch processing outcome -/

/-- An invalid row: 10 sqft is below the 50 sqft minimum. -/
def badRow : CSVRowData := { goodRow with room_sf := 10 }

/-- C2 counterexample: for a batch whose only row fails validation, the
handler returns the early `success: false` error response — not a
success payload with `room_count = 0` and the error list. -/
theorem C2_processing_counterexample :
    (parseRows [badRow]).1 = []
    ∧ (processCSV DEFAULT_CONFIGURATION [badRow]).isSuccess = false := by
  have hv : (parseRows [badRow]).1 = [] := by
    norm_num +decide [parseRows, parseRowsAux, validateCSVRow, badRow, goodRow,
      requiredFieldErrors, jsTrimEmpty, moistureErrors, moistureFields]
  refine ⟨hv, ?_⟩
  simp only [processCSV]
  rw [if_pos hv]
  rfl

/-- C2 amended: when at least one row passes validation, the response
carries the RoomResults for every valid row, the complete error list and
the skipped (invalid-row) count; when zero rows pass validation the
handler instead returns the HTTP 400 failure response whose message joins
the row errors — there is no success payload with `room_count = 0`. -/
theorem C2_processing_amended (cfg : UserConfiguration) (rows : List CSVRowData) :
    ((parseRows rows).1 = [] → (processCSV cfg rows).isSuccess = false)
    ∧ ((parseRows rows).1 ≠ [] →
        (processCSV cfg rows).isSuccess = true
        ∧ (processCSV cfg rows).roomResults = ((parseRows rows).1).map (calcRoom cfg)
        ∧ (processCSV cfg rows).errorList = (parseRows rows).2.2
        ∧ (processCSV cfg rows).skippedCount = ((parseRows rows).2.1).length) := by
  constructor
  · intro h
    simp only [processCSV]
    rw [if_pos h]
    rfl
  · intro h
    simp only [processCSV]
    rw [if_neg h]
    exact ⟨rfl, rfl, rfl, rfl⟩

/-- C2 amended witness: one all-invalid batch takes the failure branch,
and one mixed batch returns the per-row results with one skipped row. -/
theorem C2_processing_amended_witness :
    (parseRows [badRow]).1 = []
    ∧ (processCSV DEFAULT_CONFIGURATION [badRow]).isSuccess = false
    ∧ (parseRows [goodRow, badRow]).1 = [goodRow]
    ∧ (processCSV DEFAULT_CONFIGURATION [goodRow, badRow]).isSuccess = true
    ∧ (processCSV DEFAULT_CONFIGURATION [goodRow, badRow]).skippedCount = 1 := by
  have h1 : (parseRows [badRow]).1 = [] := by
    norm_num +decide [parseRows, parseRowsAux, validateCSVRow, badRow, goodRow,
      requiredFieldErrors, jsTrimEmpty, moistureErrors, moistureFields]
  have h2 : (parseRows [goodRow, badRow]).1 = [goodRow] := by
    norm_num +decide [parseRows, parseRowsAux, validateCSVRow, badRow, goodRow,
      requiredFieldErrors, jsTrimEmpty, moistureErrors, moistureFields]
  have h3 : (parseRows [goodRow, badRow]).2.1.length = 1 := by
    norm_num +decide [parseRows, parseRowsAux, validateCSVRow, badRow, goodRow,
      requiredFieldErrors, jsTrimEmpty, moistureErrors, moistureFields]
  have hne : (parseRows [goodRow, badRow]).1 ≠ [] := by rw [h2]; simp
  have hs := (C2_processing_amended DEFAULT_CONFIGURATION [goodRow, badRow]).2 hne
  exact ⟨h1, (C2_processing_amended DEFAULT_CONFIGURATION [badRow]).1 h1, h2, hs.1,
    hs.2.2.2.trans h3⟩

/-! ### C9 : moisture range validation -/

/-- Every row in the `valid` output of the parsing loop passed the
validator (for the row number it was checked with). -/
theorem parseRowsAux_valid_member (i : ℕ) (rows : List CSVRowData) (r : CSVRowData)
    (hr : r ∈ (parseRowsAux i rows).1) : ∃ n, validateCSVRow r n = [] := by
  induction rows generalizing i with
  | nil => simp [parseRowsAux] at hr
  | cons a rest ih =>
      simp only [parseRowsAux] at hr
      split at hr
      · rcases List.mem_cons.mp hr with h1 | h2
        · subst h1
          exact ⟨i + 1, by assumption⟩
        · exact ih (i + 1) h2
      · exact ih (i + 1) hr

/-- A non-zero out-of-range moisture value produces its validation
error. -/
theorem moisture_error_mem (row : CSVRowData) (n : ℕ) (f : String) (v : ℚ)
    (hmem : (f, v) ∈ moistureFields row) (hv : v ≠ 0)
    (hout : v < 5/100 ∨ v > 95/100) :
    (⟨n, f, f ++ " must be between 0.05-0.95 (5%-95%)", some v⟩ : ValidationError)
      ∈ validateCSVRow row n := by
  unfold validateCSVRow
  refine List.mem_append_right _ ?_
  unfold moistureErrors
  refine List.mem_filterMap.mpr ⟨(f, v), hmem, ?_⟩
  rw [if_pos ⟨hv, hout⟩]

/-- C9 counterexample: a moisture value of exactly 0 lies outside
[0.05, 0.95], but the JS truthiness guard skips it: the row validates
with no error at all and is kept in the valid results. -/
theorem C9_moisture_counterexample :
    ({ goodRow with ceiling_damage_moisture := 0 } : CSVRowData).ceiling_damage_moisture
        < 5/100
    ∧ validateCSVRow { goodRow with ceiling_damage_moisture := 0 } 2 = []
    ∧ (parseRows [{ goodRow with ceiling_damage_moisture := 0 }]).1
        = [{ goodRow with ceiling_damage_moisture := 0 }] := by
  refine ⟨by norm_num [goodRow], ?_, ?_⟩ <;>
    norm_num +decide [parseRows, parseRowsAux, validateCSVRow, goodRow,
      requiredFieldErrors, jsTrimEmpty, moistureErrors, moistureFields]

/-- C9 amended: the validator reports the field-level error (row, field,
message, offending value) for every moisture field that is non-zero and
outside [0.05, 0.95] — a value of exactly 0, the parser default for blank
cells, is exempted by the JS truthiness guard — and every row kept in the
valid results has each moisture field either 0 or within [0.05, 0.95]. -/
theorem C9_moisture_amended :
    (∀ (row : CSVRowData) (n : ℕ) (f : String) (v : ℚ),
      (f, v) ∈ moistureFields row → v ≠ 0 → (v < 5/100 ∨ v > 95/100) →
      (⟨n, f, f ++ " must be between 0.05-0.95 (5%-95%)", some v⟩ : ValidationError)
          ∈ validateCSVRow row n
        ∧ validateCSVRow row n ≠ [])
    ∧ (∀ (rows : List CSVRowData) (row : CSVRowData) (f : String) (v : ℚ),
      row ∈ (parseRows rows).1 → (f, v) ∈ moistureFields row →
      v = 0 ∨ (5/100 ≤ v ∧ v ≤ 95/100)) := by
  constructor
  · intro row n f v hmem hv hout
    have he := moisture_error_mem row n f v hmem hv hout
    exact ⟨he, fun hnil => by rw [hnil] at he; exact List.not_mem_nil _ he⟩
  · intro rows row f v hrow hmem
    by_cases hv : v = 0
    · exact Or.inl hv
    · right
      by_contra hc
      push_neg at hc
      have hout : v < 5/100 ∨ v > 95/100 := by
        rcases lt_or_ge v (5/100) with h | h
        · exact Or.inl h
        · exact Or.inr (hc h)
      obtain ⟨n, hn⟩ := parseRowsAux_valid_member 1 rows row hrow
      have he := moisture_error_mem row n f v hmem hv hout
      rw [hn] at he
      exact List.not_mem_nil _ he

/-- C9 amended witness: a concrete 0.96 moisture row receives the error,
and a concrete valid row's moisture value is within range. -/
theorem C9_moisture_amended_witness :
    (("floor_materials_moisture", (96/100 : ℚ))
        ∈ moistureFields { goodRow with floor_materials_moisture := 96/100 }
      ∧ (⟨2, "floor_materials_moisture",
          "floor_materials_moisture must be between 0.05-0.95 (5%-95%)",
          some (96/100 : ℚ)⟩ : ValidationError)
          ∈ validateCSVRow { goodRow with floor_materials_moisture := 96/100 } 2)
    ∧ (goodRow ∈ (parseRows [goodRow]).1
      ∧ (((1:ℚ)/10) = 0 ∨ ((5:ℚ)/100 ≤ 1/10 ∧ (1:ℚ)/10 ≤ 95/100))) := by
  have hmem : ("floor_materials_moisture", (96/100 : ℚ))
      ∈ moistureFields { goodRow with floor_materials_moisture := 96/100 } := by
    norm_num [moistureFields, goodRow]
  have h1 := (C9_moisture_amended.1 { goodRow with floor_materials_moisture := 96/100 }
    2 "floor_materials_moisture" (96/100) hmem (by norm_num) (by norm_num)).1
  have hstr : "floor_materials_moisture" ++ " must be between 0.05-0.95 (5%-95%)"
      = "floor_materials_moisture must be between 0.05-0.95 (5%-95%)" := rfl
  rw [hstr] at h1
  have hrow : goodRow ∈ (parseRows [goodRow]).1 := by
    have : (parseRows [goodRow]).1 = [goodRow] := by
      norm_num +decide [parseRows, parseRowsAux, validateCSVRow, goodRow,
        requiredFieldErrors, jsTrimEmpty, moistureErrors, moistureFields]
    rw [this]
    simp
  have hmem2 : ("ceiling_damage_moisture", (1/10 : ℚ)) ∈ moistureFields goodRow := by
    norm_num [moistureFields, goodRow]
  exact ⟨⟨hmem, h1⟩,
    hrow, C9_moisture_amended.2 [goodRow] goodRow "ceiling_damage_moisture" (1/10)
      hrow hmem2⟩

end DamageScan
